import Mathlib

/-!
Verification of the RCA report generator (`rca_app_local.py`).

The Python program is shallowly embedded below: Python strings are Lean
`String`s, Python lists are Lean `List`s, the floats the program obtains
via `float(...)` are modelled as `PyFloat` — exact scaled integers
(`DecNum`, value `num / 10 ^ exp`) for finite values, plus signed
infinity and NaN — fallible parsing is `Option`, and the
Streamlit session state is an explicit `SessionState` record transformed
by pure step functions.  Rationals `ℚ` appear only in specification-side
statements (via `DecNum.toRat`), so every embedded definition evaluates
inside the kernel.
-/

namespace RcaApp

/-- Model of Python `str.strip()` on a list of characters: drop whitespace
from both ends. -/
def pyStripList (cs : List Char) : List Char :=
  ((cs.dropWhile Char.isWhitespace).reverse.dropWhile Char.isWhitespace).reverse

/-- Model of Python `str.strip()`. -/
def pyStrip (s : String) : String :=
  (pyStripList s.toList).asString

/-- Model of Python `str.lower()` on one character: ASCII case mapping plus
the one non-ASCII cased character appearing in the program's literals
(U+0178 LATIN CAPITAL LETTER Y WITH DIAERESIS lowers to U+00FF). -/
def pyCharLower (c : Char) : Char :=
  if c = 'Ÿ' then 'ÿ' else c.toLower

/-- Model of Python `str.lower()`. -/
def pyLower (s : String) : String :=
  (s.toList.map pyCharLower).asString

/-- Model of Python `str.upper()` (ASCII range, which covers the program's
queue names). -/
def pyUpper (s : String) : String :=
  (s.toList.map Char.toUpper).asString

/-- Powers of ten, by structural recursion so that they reduce inside
the kernel. -/
def pow10 : Nat → Nat
  | 0 => 1
  | n + 1 => 10 * pow10 n

/-- A finite number parsed from numeric text, kept exactly: the value is
`num / 10 ^ exp`.  This represents the finite Python floats this program
builds with `float(...)` (see `PyFloat` for the full value space). -/
structure DecNum where
  num : Int
  exp : Nat
deriving DecidableEq

/-- The rational value of a parsed decimal number (specification side). -/
def DecNum.toRat (x : DecNum) : ℚ := (x.num : ℚ) / 10 ^ x.exp

/-- Value of a decimal digit character, `none` for non-digits. -/
def digitVal (c : Char) : Option Nat :=
  if c.isDigit then some (c.toNat - 48) else none

/-- Reads a run of decimal digits left to right; `none` as soon as a
non-digit appears; the empty run reads as `0` (callers rule out the case
where both the integer and the fractional run are empty). -/
def digitsToNat (cs : List Char) : Option Nat :=
  cs.foldl
    (fun acc c =>
      match acc, digitVal c with
      | some n, some d => some (n * 10 + d)
      | _, _ => none)
    (some 0)

/-- The value of a Python float obtained from `float(text)`: an exact
finite decimal, a signed infinity (`float("inf")`, `float("-inf")`), or
a NaN.  `float()` accepts `inf`/`infinity`/`nan` (any case, optional
sign) without raising, so they must be part of the model. -/
inductive PyFloat where
  | finite (val : DecNum) : PyFloat
  | inf (neg : Bool) : PyFloat
  | nan : PyFloat
deriving DecidableEq

/-- Helper for `underscoresOk`, carrying the previous character. -/
def underscoresOkAux : Option Char → List Char → Bool
  | _, [] => true
  | prev, '_' :: rest =>
    (match prev with
     | some p => p.isDigit
     | none => false) &&
    (match rest with
     | n :: _ => n.isDigit
     | [] => false) &&
    underscoresOkAux (some '_') rest
  | _, c :: rest => underscoresOkAux (some c) rest

/-- CPython's rule for digit group separators in `float()` input: every
underscore must stand directly between two digits (`"1_0"` is accepted,
`"_1"`, `"1_"`, `"1__0"`, `"1_.5"` are not). -/
def underscoresOk (cs : List Char) : Bool := underscoresOkAux none cs

/-- The mantissa grammar of `float()` after sign and exponent have been
split off: digits with an optional single decimal point (`"5."` and
`".5"` parse, `"."` and `""` do not), read as an exact scaled integer. -/
def parseMantissa (neg : Bool) (body : List Char) : Option DecNum :=
  let intPart := body.takeWhile (fun c => c ≠ '.')
  let signed : Nat → Int := fun n => if neg then -(n : Int) else (n : Int)
  match body.dropWhile (fun c => c ≠ '.') with
  | [] =>
    if intPart = [] then none
    else (digitsToNat intPart).map (fun n => ⟨signed n, 0⟩)
  | _ :: frac =>
    if frac.any (fun c => c = '.') then none
    else if intPart = [] ∧ frac = [] then none
    else
      match digitsToNat intPart, digitsToNat frac with
      | some ip, some fp => some ⟨signed (ip * pow10 frac.length + fp), frac.length⟩
      | _, _ => none

/-- The exponent part of `float()` input, after the `e`/`E` marker:
optional sign followed by at least one digit. -/
def parseExpInt (cs : List Char) : Option Int :=
  let esgn : Bool × List Char :=
    match cs with
    | '-' :: rest => (true, rest)
    | '+' :: rest => (false, rest)
    | _ => (false, cs)
  if esgn.2 = [] then none
  else (digitsToNat esgn.2).map (fun n => if esgn.1 then -(n : Int) else (n : Int))

/-- Multiply a parsed mantissa by `10 ^ e`, exactly. -/
def applyExp (d : DecNum) (e : Int) : DecNum :=
  match e with
  | Int.ofNat k => ⟨d.num * (pow10 k : Int), d.exp⟩
  | Int.negSucc k => ⟨d.num, d.exp + (k + 1)⟩

/-- Model of Python `float(s)`: optional surrounding whitespace, optional
sign, then `inf`/`infinity`/`nan` (case-insensitive) or a decimal
mantissa with an optional `e`/`E` exponent, with CPython's
underscore-between-digits rule.  Finite values are kept exact; overflow
to infinity at the float range limits (`"1e400"`), non-ASCII digits and
non-ASCII whitespace are not modelled.  `none` models `float` raising
`ValueError`. -/
def parsePyFloat (s : String) : Option PyFloat :=
  let cs := pyStripList s.toList
  let sgn : Bool × List Char :=
    match cs with
    | '-' :: rest => (true, rest)
    | '+' :: rest => (false, rest)
    | _ => (false, cs)
  let body := sgn.2
  let low := body.map pyCharLower
  if low = ['i', 'n', 'f'] ∨ low = ['i', 'n', 'f', 'i', 'n', 'i', 't', 'y'] then
    some (PyFloat.inf sgn.1)
  else if low = ['n', 'a', 'n'] then some PyFloat.nan
  else if underscoresOk body then
    let clean := body.filter (fun c => c ≠ '_')
    let mant := clean.takeWhile (fun c => ¬(c = 'e' ∨ c = 'E'))
    match clean.dropWhile (fun c => ¬(c = 'e' ∨ c = 'E')) with
    | [] => (parseMantissa sgn.1 mant).map PyFloat.finite
    | _ :: expPart =>
      match parseMantissa sgn.1 mant, parseExpInt expPart with
      | some d, some e => some (PyFloat.finite (applyExp d e))
      | _, _ => none
  else none

/-- Python `x == 0` on a parsed float: true exactly for finite zero
(`inf == 0` and `nan == 0` are both false). -/
def pyIsZero : PyFloat → Bool
  | PyFloat.finite d => d.num == 0
  | _ => false

/-- Python `a > f` on parsed floats: any comparison with NaN is false;
infinities compare by sign; finite values compare exactly (by
cross-multiplication of the scaled integers). -/
def pyGt : PyFloat → PyFloat → Bool
  | PyFloat.nan, _ => false
  | _, PyFloat.nan => false
  | PyFloat.inf na, PyFloat.inf nf => !na && nf
  | PyFloat.inf na, PyFloat.finite _ => !na
  | PyFloat.finite _, PyFloat.inf nf => nf
  | PyFloat.finite a, PyFloat.finite f =>
    decide (f.num * (pow10 a.exp : Int) < a.num * (pow10 f.exp : Int))

/-- Round a nonnegative rational to the nearest natural number, ties to
even — the rounding used to model CPython's fixed-precision formatting of
a nonnegative value (specification side). -/
def roundHalfEvenQ (q : ℚ) : Nat :=
  if q - ⌊q⌋₊ < 1 / 2 then ⌊q⌋₊
  else if 1 / 2 < q - ⌊q⌋₊ then ⌊q⌋₊ + 1
  else if ⌊q⌋₊ % 2 = 0 then ⌊q⌋₊ else ⌊q⌋₊ + 1

/-- Left-pad a 2-digit field. -/
def pad2 (n : Nat) : String :=
  if n < 10 then "0" ++ toString n else toString n

/-- Specification-side model of Python's `f"{x:.2%}"` for a nonnegative
rational: multiply by 100, keep two decimal places (ties to even), append
`%`.  The program only formats `abs(...)` values, so the nonnegative case
suffices. -/
def formatPercent2Rat (q : ℚ) : String :=
  toString (roundHalfEvenQ (q * 10000) / 100) ++ "." ++
    pad2 (roundHalfEvenQ (q * 10000) % 100) ++ "%"

/-- Division `n / d` rounded to the nearest natural number, ties to even
(for `0 < d`): the executable counterpart of `roundHalfEvenQ` on the
fraction `n / d`. -/
def divRoundHalfEven (n d : Nat) : Nat :=
  if 2 * (n % d) < d then n / d
  else if d < 2 * (n % d) then n / d + 1
  else if (n / d) % 2 = 0 then n / d else n / d + 1

/-- Executable computation of `f"{abs(actual/forecast - 1):.2%}"` on two
parsed decimal numbers with `forecast ≠ 0`: the ratio is the integer
fraction `|a.num·10^f.exp − f.num·10^a.exp| / |f.num·10^a.exp|`. -/
def variancePercentFormatted (f a : DecNum) : String :=
  toString
      (divRoundHalfEven
          (10000 * (a.num * (pow10 f.exp : Int) - f.num * (pow10 a.exp : Int)).natAbs)
          (f.num * (pow10 a.exp : Int)).natAbs / 100) ++ "." ++
    pad2
      (divRoundHalfEven
          (10000 * (a.num * (pow10 f.exp : Int) - f.num * (pow10 a.exp : Int)).natAbs)
          (f.num * (pow10 a.exp : Int)).natAbs % 100) ++ "%"

/-- Python `f"{abs(a/f - 1):.2%}"` on parsed floats with `f` not zero:
a NaN operand or `inf/inf` gives NaN, formatted `nan%`; a finite actual
over an infinite forecast gives `a/f = ±0.0`, so `abs(±0.0 - 1) = 1.0`,
formatted `100.00%`; an infinite actual over a finite forecast gives
`±inf`, whose absolute value formats as `inf%`; two finite operands are
the exact computation of `variancePercentFormatted`. -/
def varianceFormattedPy : PyFloat → PyFloat → String
  | PyFloat.nan, _ => "nan%"
  | _, PyFloat.nan => "nan%"
  | PyFloat.inf _, PyFloat.inf _ => "nan%"
  | PyFloat.inf _, PyFloat.finite _ => "100.00%"
  | PyFloat.finite _, PyFloat.inf _ => "inf%"
  | PyFloat.finite fd, PyFloat.finite ad => variancePercentFormatted fd ad

/-- Embedding of the Demand-section variance computation
(`rca_app_local.py` lines 400-421): with both fields non-empty, parse both
with `float(...)`; a `ValueError` from either parse yields the fixed
error sentence; a forecast equal to zero yields the zero-denominator
sentence; otherwise `variance_value = actual/forecast - 1` is formatted
with `:.2%` of its absolute value and the direction phrase compares
`actual > forecast`.  Non-finite parsed values (`inf`, `nan`) pass the
zero test and flow into the computation exactly as Python floats do. -/
def demandVarianceText (forecasted_volume_str actual_volume_str : String) : String :=
  if forecasted_volume_str = "" ∨ actual_volume_str = "" then ""
  else
    match parsePyFloat forecasted_volume_str, parsePyFloat actual_volume_str with
    | some forecasted_volume, some actual_volume =>
      if pyIsZero forecasted_volume then
        "Cannot calculate variance: Forecasted volume is zero."
      else
        let variance_formatted := varianceFormattedPy forecasted_volume actual_volume
        if pyGt actual_volume forecasted_volume then
          "Incoming volume was " ++ variance_formatted ++ " higher than forecasted."
        else
          "Incoming volume was " ++ variance_formatted ++ " lower than forecasted."
    | _, _ =>
      "Error: Invalid numeric input for forecasted or actual volume. Cannot calculate variance."

/-- Embedding of the live-channel Supply-section variance computation
(`rca_app_local.py` lines 354-371): same shape as the Demand computation
with its own zero-denominator and error sentences; `result_text` stays
`""` while either field is empty. -/
def liveSupplyVarianceText (required_hours_str actual_hours_str : String) : String :=
  if required_hours_str = "" ∨ actual_hours_str = "" then ""
  else
    match parsePyFloat required_hours_str, parsePyFloat actual_hours_str with
    | some required_hours, some actual_hours =>
      if pyIsZero required_hours then
        "Cannot calculate variance: Required hours to handle forecasted volume is zero."
      else
        let result_formatted := varianceFormattedPy required_hours actual_hours
        if pyGt actual_hours required_hours then
          "Incoming volume was " ++ result_formatted ++ " higher than forecasted."
        else
          "Incoming volume was " ++ result_formatted ++ " lower than forecasted."
    | _, _ =>
      "Error: Invalid numeric input. Cannot calculate variance."

/-- Embedding of `map_sheet_color_char_to_name` (`rca_app_local.py` lines
68-78): the status cell is lowercased then stripped and looked up in the
fixed glyph/text table.  The three pictographic keys are embedded exactly
as the bytes appearing in the source file (mojibake of the emoji
indicators). -/
def map_sheet_color_char_to_name (sheet_status_char : String) : Option String :=
  let k := pyStrip (pyLower sheet_status_char)
  if k = "ðŸ”´" then some "red"
  else if k = "ðŸŸ¡" then some "amber"
  else if k = "ðŸŸ¢" then some "green"
  else if k = "red" then some "red"
  else if k = "amber" then some "amber"
  else if k = "green" then some "green"
  else none

/-- The header/label names excluded from the queue list
(`rca_app_local.py` line 102). -/
def headerLabels : List String := ["email queues", "live queues"]

/-- One flagged queue as assembled by `get_all_relevant_queues_from_sheet`
(`rca_app_local.py` line 109): queue name, mapped status color, and the
0-based index of the row within the fetched range. -/
structure QueueEntry where
  name : String
  color : String
  rangeIndex : Nat
deriving DecidableEq

/-- One iteration of the row loop in `get_all_relevant_queues_from_sheet`
(`rca_app_local.py` lines 95-109): skip rows without a status cell
(`len(row) <= 7`), strip name and status, skip blank or header names, map
the status and keep only red/amber. -/
def rowEntry (r_idx : Nat) (row : List String) : Option QueueEntry :=
  if row.length ≤ 7 then none
  else if pyStrip (row.getD 0 "") = "" ∨
      pyLower (pyStrip (row.getD 0 "")) ∈ headerLabels then none
  else
    match map_sheet_color_char_to_name (pyStrip (row.getD 7 "")) with
    | some mapped_color =>
      if mapped_color = "red" ∨ mapped_color = "amber" then
        some ⟨pyStrip (row.getD 0 ""), mapped_color, r_idx⟩
      else none
    | none => none

/-- The `enumerate` loop of `get_all_relevant_queues_from_sheet`, with the
running range index made explicit. -/
def relevantAux : Nat → List (List String) → List QueueEntry
  | _, [] => []
  | i, row :: rest =>
    match rowEntry i row with
    | some e => e :: relevantAux (i + 1) rest
    | none => relevantAux (i + 1) rest

/-- Embedding of `get_all_relevant_queues_from_sheet`
(`rca_app_local.py` lines 81-121) applied to the fetched range rows
(backend errors and the empty-range warning both yield `[]`, exactly as
every non-success path of the Python function returns `[]`). -/
def get_all_relevant_queues_from_sheet (all_data_rows : List (List String)) :
    List QueueEntry :=
  relevantAux 0 all_data_rows

/-- Concrete two-row snapshot used by the C5 witness: a header row and an
amber queue row. -/
def c5DemoRows : List (List String) :=
  [["Email Queues", "", "", "", "", "", "", "red"],
   ["Queue A", "", "", "", "", "", "", "amber"]]

/-- Column of the queue name in the volume sheet
(`rca_app_local.py` line 34). -/
def VOLUME_QUEUE_COL_INDEX : Nat := 3

/-- Column of the volume value in the volume sheet
(`rca_app_local.py` line 35). -/
def VOLUME_VALUE_COL_INDEX : Nat := 2

/-- The row loop of `get_actual_volume_from_sheet`
(`rca_app_local.py` lines 136-146): the guard only checks that the
value column (index 2) exists; reading the name column (index 3) of a
3-cell row raises `IndexError`, which the surrounding
`except Exception` turns into an immediate `None` — modelled by the
non-recursing `none` branch.  The sheet cell is stripped, and both sides
of the comparison are lowercased; the looked-up name is NOT stripped. -/
def volumeScanRows (queue_name_to_lookup : String) :
    List (List String) → Option String
  | [] => none
  | row :: rest =>
    if VOLUME_VALUE_COL_INDEX < row.length then
      if VOLUME_QUEUE_COL_INDEX < row.length then
        if pyLower (pyStrip (row.getD VOLUME_QUEUE_COL_INDEX "")) =
            pyLower queue_name_to_lookup then
          some (pyStrip (row.getD VOLUME_VALUE_COL_INDEX ""))
        else volumeScanRows queue_name_to_lookup rest
      else none
    else volumeScanRows queue_name_to_lookup rest

/-- Embedding of `get_actual_volume_from_sheet`
(`rca_app_local.py` lines 124-156): `None` for an empty sheet, otherwise
a linear scan of the rows after the header row.  Backend errors, the
not-found fall-through and the in-loop `IndexError` all return `None`. -/
def get_actual_volume_from_sheet (all_data_rows : List (List String))
    (queue_name_to_lookup : String) : Option String :=
  match all_data_rows with
  | [] => none
  | _ :: dataRows => volumeScanRows queue_name_to_lookup dataRows

/-- Definition following the words of claim C8: skip the header row,
return the value-column text of the first row whose name-column value
case-insensitively equals the queue name after trimming BOTH sides,
`none` when the sheet is empty or no row matches. -/
def findActualVolumeClaim (rows : List (List String)) (queueName : String) :
    Option String :=
  match rows with
  | [] => none
  | _ :: dataRows =>
    (dataRows.find? (fun row =>
        decide (VOLUME_QUEUE_COL_INDEX < row.length) &&
          (pyLower (pyStrip (row.getD VOLUME_QUEUE_COL_INDEX "")) ==
            pyLower (pyStrip queueName)))).map
      (fun row => pyStrip (row.getD VOLUME_VALUE_COL_INDEX ""))

/-- The amended reading of C8, matching the code: the sheet cell is
trimmed and lowercased but the looked-up queue name is only lowercased. -/
def findActualVolumeAmended (rows : List (List String)) (queueName : String) :
    Option String :=
  match rows with
  | [] => none
  | _ :: dataRows =>
    (dataRows.find? (fun row =>
        decide (VOLUME_QUEUE_COL_INDEX < row.length) &&
          (pyLower (pyStrip (row.getD VOLUME_QUEUE_COL_INDEX "")) ==
            pyLower queueName))).map
      (fun row => pyStrip (row.getD VOLUME_VALUE_COL_INDEX ""))

/-- Concrete volume sheet used by the C8 witness. -/
def c8DemoRows : List (List String) :=
  [["name", "x", "volume", "queue"],
   ["", "", "7", " Queue A "],
   ["", "", "9", "Queue A"]]

/-- One paragraph of the assembled report document, at the level of
detail the claims need: python-docx paragraphs with their style and, for
the title, the inline colored marker image (identified by its color). -/
inductive DocItem where
  | blank : DocItem
  | title (color : String) (text : String) : DocItem
  | heading2 (text : String) : DocItem
  | bullet (text : String) : DocItem
deriving DecidableEq

/-- One in-progress or completed RCA: the keys of the
`st.session_state.rca_data` dictionary (the `rca_type` key, which only
selects the Supply questions asked, is not needed by any claim and is
not modelled). -/
structure RcaData where
  title_skill : String
  report_color : String
  selected_row_index_in_range : Nat
  supply_word_lines : List String
  forecasted_volume_str : String
  actual_volume_str : String
  variance_text : String
  drivers_list : List String
deriving DecidableEq

/-- The paragraphs emitted for one record by
`process_single_rca_to_document` (`rca_app_local.py` lines 195-232), in
source order: the title paragraph (colored circle matching
`report_color` inline with the uppercased `title_skill`, style Heading
1), the "Supply" Heading 2 followed by one bullet per supply line, the
"Demand" Heading 2 followed by the forecast, actual and variance
bullets, and the drivers Heading 2 followed by one bullet per driver. -/
def recordItems (rca_data : RcaData) : List DocItem :=
  [DocItem.title rca_data.report_color (" " ++ pyUpper rca_data.title_skill),
   DocItem.heading2 "Supply"] ++
  rca_data.supply_word_lines.map DocItem.bullet ++
  [DocItem.heading2 "Demand",
   DocItem.bullet ("Forecast volume was " ++ rca_data.forecasted_volume_str ++ "."),
   DocItem.bullet ("Actual volume was " ++ rca_data.actual_volume_str ++ "."),
   DocItem.bullet rca_data.variance_text,
   DocItem.heading2 "Main Drivers & Mitigation actions"] ++
  rca_data.drivers_list.map DocItem.bullet

/-- Embedding of the document effect of `process_single_rca_to_document`
(`rca_app_local.py` lines 183-245): two blank separator paragraphs when
at least one report was already added, then the record paragraphs; the
record is appended to `rca_reports`.  Returns the new document and the
new report list. -/
def process_single_rca_to_document (document : List DocItem)
    (rca_reports : List RcaData) (rca_data : RcaData) :
    List DocItem × List RcaData :=
  (document ++
      (if 0 < rca_reports.length then [DocItem.blank, DocItem.blank] else []) ++
      recordItems rca_data,
   rca_reports ++ [rca_data])

/-- The document the specification describes for a sequence of appended
records: each record group in order, with the blank separation before
every record after the first. -/
def expectedDoc : List RcaData → List DocItem
  | [] => []
  | r :: rest =>
    recordItems r ++
      rest.flatMap (fun d => DocItem.blank :: DocItem.blank :: recordItems d)

/-- Whether a paragraph is a title heading. -/
def isTitle : DocItem → Bool
  | DocItem.title _ _ => true
  | _ => false

/-- Number of title headings in a document. -/
def countTitles (doc : List DocItem) : Nat := (doc.filter isTitle).length

/-- Modelled from the spec: the document-building backend is external to
the repository (python-docx), and `serialize()` / `Document.save` is
specified as returning the complete document as a byte stream without
mutating document state.  The byte stream is a pure rendering of the
document paragraph list; the operation returns the bytes together with
the (unchanged) document state. -/
def docItemBytes : DocItem → List Nat
  | DocItem.blank => [0]
  | DocItem.title c t => [1] ++ c.toList.map Char.toNat ++ [0] ++ t.toList.map Char.toNat
  | DocItem.heading2 t => [2] ++ t.toList.map Char.toNat
  | DocItem.bullet t => [3] ++ t.toList.map Char.toNat

/-- Modelled from the spec: `serialize()` on the assembled document —
returns the byte stream and the document state after the call. -/
def serializeDocument (document : List DocItem) : List Nat × List DocItem :=
  (document.flatMap docItemBytes, document)

/-- The wizard phase stored in `st.session_state.current_rca_step`. -/
inductive Step where
  | select_queue : Step
  | collect_inputs : Step
  | review_rca : Step
  | finish : Step
deriving DecidableEq

/-- The Streamlit session state fields the claims are about
(`rca_app_local.py` lines 164-179): completed reports, the cumulative
document, the remaining queue list, the current phase, and the active
record (`none` before a queue is selected). -/
structure SessionState where
  rca_reports : List RcaData
  document : List DocItem
  remaining_queues : List QueueEntry
  current_rca_step : Step
  rca_data : Option RcaData
deriving DecidableEq

/-- The blocking error shown when the completeness check fails
(`rca_app_local.py` line 457). -/
def completeRejectMsg : String :=
  "Please ensure all sections (Supply, Demand, Main Drivers) are filled for the current RCA."

/-- Embedding of the "Complete RCA & Add to Report" button handler
(`rca_app_local.py` lines 449-457): the record is accepted only when
`supply_word_lines`, `variance_text` and `drivers_list` are all truthy
(non-empty); acceptance runs `process_single_rca_to_document` and moves
to `review_rca`; rejection leaves the state unchanged and signals the
blocking error message. -/
def complete_rca_button (s : SessionState) : SessionState × Option String :=
  match s.rca_data with
  | none => (s, none)
  | some rca_data =>
    if rca_data.supply_word_lines ≠ [] ∧ rca_data.variance_text ≠ "" ∧
        rca_data.drivers_list ≠ [] then
      ({ s with
          document := (process_single_rca_to_document s.document s.rca_reports rca_data).1,
          rca_reports := (process_single_rca_to_document s.document s.rca_reports rca_data).2,
          current_rca_step := Step.review_rca }, none)
    else (s, some completeRejectMsg)

/-- Embedding of the numeric branch of the queue selection step
(`rca_app_local.py` lines 293-308): a valid 0-based `choice_idx` seeds
`rca_data` from the chosen entry, pops exactly that entry from
`remaining_queues` and moves to `collect_inputs`; an out-of-range index
leaves the state unchanged (an error is shown and the user is
re-prompted). -/
def select_queue_choice (s : SessionState) (choice_idx : Nat) : SessionState :=
  if choice_idx < s.remaining_queues.length then
    { s with
        rca_data := some
          { title_skill := (s.remaining_queues.getD choice_idx ⟨"", "", 0⟩).name,
            report_color := (s.remaining_queues.getD choice_idx ⟨"", "", 0⟩).color,
            selected_row_index_in_range :=
              (s.remaining_queues.getD choice_idx ⟨"", "", 0⟩).rangeIndex,
            supply_word_lines := [], forecasted_volume_str := "",
            actual_volume_str := "", variance_text := "", drivers_list := [] },
        remaining_queues := s.remaining_queues.eraseIdx choice_idx,
        current_rca_step := Step.collect_inputs }
  else s

/-- The field updates performed by the `collect_inputs` form over a
rerun cycle (`rca_app_local.py` lines 344, 377, 418, 420, 434, 446-447):
the supply lines, demand strings, variance text and driver list of the
active record are replaced with the values computed from the current
form contents; a state with no active record is left unchanged. -/
def fill_inputs (s : SessionState) (supply : List String)
    (fstr astr vtext : String) (drivers : List String) : SessionState :=
  match s.rca_data with
  | none => s
  | some d =>
    { s with
        rca_data := some
          { d with
              supply_word_lines := supply, forecasted_volume_str := fstr,
              actual_volume_str := astr, variance_text := vtext,
              drivers_list := drivers } }

/-- Concrete filled record used by the C1 witness. -/
def c1Record : RcaData :=
  { title_skill := "Queue A", report_color := "amber",
    selected_row_index_in_range := 5,
    supply_word_lines := ["Required hours to handle forecasted volume were 10."],
    forecasted_volume_str := "100", actual_volume_str := "120",
    variance_text := demandVarianceText "100" "120",
    drivers_list := ["staffing shortfall"] }

/-- Concrete session state used by the C1 witness: one completed-input
record active, one queue still remaining. -/
def c1State : SessionState :=
  { rca_reports := [], document := [],
    remaining_queues := [⟨"Queue B", "red", 20⟩],
    current_rca_step := Step.collect_inputs,
    rca_data := some c1Record }

inductive CreateOutcome where
  | ok : CreateOutcome
  | failNoFile : CreateOutcome
  | failFileLeft : CreateOutcome
deriving DecidableEq

/-- Observable outcome of one `process_single_rca_to_document` call for
the marker-image resource: whether the marker file still exists after
the call, whether `os.remove` ran, and the error (if any) that
propagated out of the call. -/
structure MarkerRun where
  fileExistsAfter : Bool
  removeRan : Bool
  raised : Option String
deriving DecidableEq

/-- The `finally` clause of `process_single_rca_to_document`
(`rca_app_local.py` lines 239-245): `circle_image_path` is a local
variable that is only assigned inside the `try` block (line 193), so
when creation failed the guard `if circle_image_path and ...` reads an
unassigned local and itself raises `UnboundLocalError`; with an assigned
path the file is removed. -/
def markerFinally (circle_image_path : Option String) (fileExists : Bool) :
    MarkerRun :=
  match circle_image_path with
  | none =>
    { fileExistsAfter := fileExists, removeRan := false,
      raised := some "UnboundLocalError" }
  | some _ =>
    { fileExistsAfter := false, removeRan := true, raised := none }

/-- Embedding of the resource flow of `process_single_rca_to_document`
(`rca_app_local.py` lines 183-245): the `try` block creates the marker
image and embeds it; `except Exception` catches any error from the block
(creation or embedding) without re-raising; then `finally` runs.  The
`embedFails` flag injects an embedding failure (for instance
`add_picture` raising); either way the path stays assigned once creation
succeeded. -/
def process_marker_cleanup (c : CreateOutcome) (embedFails : Bool) : MarkerRun :=
  match c, embedFails with
  | CreateOutcome.ok, _ =>
    markerFinally (some "temp_report_images/circle.png") true
  | CreateOutcome.failNoFile, _ => markerFinally none false
  | CreateOutcome.failFileLeft, _ => markerFinally none true

/-- Record used by the C10 theorem: forecast text `"abc"` does not parse,
so `variance_text` holds the demand error sentence. -/
def c10Record : RcaData :=
  { title_skill := "Queue A", report_color := "amber",
    selected_row_index_in_range := 5,
    supply_word_lines := ["Required hours to handle forecasted volume were 10."],
    forecasted_volume_str := "abc", actual_volume_str := "120",
    variance_text := demandVarianceText "abc" "120",
    drivers_list := ["staffing shortfall"] }

/-- Session state used by the C10 theorem. -/
def c10State : SessionState :=
  { rca_reports := [], document := [], remaining_queues := [],
    current_rca_step := Step.collect_inputs,
    rca_data := some c10Record }

theorem pow10_eq (n : Nat) : pow10 n = 10 ^ n := by
  induction n with
  | zero => rfl
  | succ n ih => rw [pow10, ih, pow_succ]; ring

theorem pow10_pos (n : Nat) : 0 < pow10 n := by
  rw [pow10_eq]; positivity

theorem DecNum.toRat_eq_zero (f : DecNum) : f.toRat = 0 ↔ f.num = 0 := by
  unfold DecNum.toRat
  rw [div_eq_zero_iff]
  simp [pow_ne_zero]

theorem DecNum.toRat_lt (f a : DecNum) :
    f.toRat < a.toRat ↔
      f.num * (pow10 a.exp : Int) < a.num * (pow10 f.exp : Int) := by
  unfold DecNum.toRat
  rw [div_lt_div_iff₀ (by positivity) (by positivity), pow10_eq, pow10_eq]
  exact_mod_cast Iff.rfl

theorem divRoundHalfEven_eq (n d : Nat) (hd : 0 < d) :
    divRoundHalfEven n d = roundHalfEvenQ ((n : ℚ) / d) := by
  have hdq : (0 : ℚ) < d := by exact_mod_cast hd
  have hfloor : ⌊(n : ℚ) / d⌋₊ = n / d := Nat.floor_div_eq_div n d
  have hcast : (d : ℚ) * ((n / d : Nat) : ℚ) + ((n % d : Nat) : ℚ) = (n : ℚ) := by
    exact_mod_cast Nat.div_add_mod n d
  have hr : (n : ℚ) / d - ((n / d : Nat) : ℚ) = ((n % d : Nat) : ℚ) / d := by
    field_simp
    linarith [hcast]
  have h1 : (((n % d : Nat) : ℚ) / d < 1 / 2) ↔ (2 * (n % d) < d) := by
    rw [div_lt_div_iff₀ hdq (by norm_num : (0 : ℚ) < 2), one_mul, mul_comm]
    exact_mod_cast Iff.rfl
  have h2 : ((1 : ℚ) / 2 < ((n % d : Nat) : ℚ) / d) ↔ (d < 2 * (n % d)) := by
    rw [div_lt_div_iff₀ (by norm_num : (0 : ℚ) < 2) hdq, one_mul, mul_comm]
    exact_mod_cast Iff.rfl
  unfold divRoundHalfEven roundHalfEvenQ
  simp only [hfloor, hr, h1, h2]

theorem variancePercentFormatted_eq (f a : DecNum) (hf : f.num ≠ 0) :
    variancePercentFormatted f a = formatPercent2Rat |a.toRat / f.toRat - 1| := by
  have hpa : ((pow10 a.exp : Int) : ℚ) = 10 ^ a.exp := by
    rw [pow10_eq]; push_cast; ring
  have hpf : ((pow10 f.exp : Int) : ℚ) = 10 ^ f.exp := by
    rw [pow10_eq]; push_cast; ring
  have hdpos : 0 < (f.num * (pow10 a.exp : Int)).natAbs := by
    rw [Int.natAbs_pos]
    exact mul_ne_zero hf (by exact_mod_cast (pow10_pos a.exp).ne')
  have habs : |a.toRat / f.toRat - 1| =
      ((a.num * (pow10 f.exp : Int) - f.num * (pow10 a.exp : Int)).natAbs : ℚ) /
        ((f.num * (pow10 a.exp : Int)).natAbs : ℚ) := by
    have hfq : (f.num : ℚ) ≠ 0 := by exact_mod_cast hf
    have h10a : ((10 : ℚ)) ^ a.exp ≠ 0 := by positivity
    have h10f : ((10 : ℚ)) ^ f.exp ≠ 0 := by positivity
    have h1 : a.toRat / f.toRat - 1 =
        ((a.num * (pow10 f.exp : Int) - f.num * (pow10 a.exp : Int) : Int) : ℚ) /
          ((f.num * (pow10 a.exp : Int) : Int) : ℚ) := by
      unfold DecNum.toRat
      push_cast [pow10_eq]
      field_simp
      ring
    rw [h1, abs_div, Int.cast_natAbs, Int.cast_abs, Int.cast_natAbs, Int.cast_abs]
  rw [habs]
  have hq : (((a.num * (pow10 f.exp : Int) - f.num * (pow10 a.exp : Int)).natAbs : ℚ) /
        ((f.num * (pow10 a.exp : Int)).natAbs : ℚ)) * 10000 =
      ((10000 * (a.num * (pow10 f.exp : Int) - f.num * (pow10 a.exp : Int)).natAbs : Nat) : ℚ) /
        ((f.num * (pow10 a.exp : Int)).natAbs : ℚ) := by
    push_cast
    ring
  unfold formatPercent2Rat variancePercentFormatted
  rw [hq, ← divRoundHalfEven_eq _ _ hdpos]

/-- C2: whenever both variance inputs parse as numbers and the
denominator (forecast / required hours) is non-zero, both variance
computations report `abs(actual/required - 1)` formatted as a percentage
with 2 decimal places, saying "higher than forecasted" exactly when
`actual > required` and "lower than forecasted" otherwise, equality
included. -/
theorem C2_variance_direction (fs as : String) (f a : DecNum)
    (hf : parsePyFloat fs = some (PyFloat.finite f))
    (ha : parsePyFloat as = some (PyFloat.finite a))
    (h0 : f.toRat ≠ 0) :
    demandVarianceText fs as =
      "Incoming volume was " ++ formatPercent2Rat |a.toRat / f.toRat - 1| ++
        (if f.toRat < a.toRat then " higher than forecasted."
         else " lower than forecasted.") ∧
    liveSupplyVarianceText fs as =
      "Incoming volume was " ++ formatPercent2Rat |a.toRat / f.toRat - 1| ++
        (if f.toRat < a.toRat then " higher than forecasted."
         else " lower than forecasted.") := by
  have hnum : f.num ≠ 0 := fun h => h0 ((DecNum.toRat_eq_zero f).mpr h)
  have hfs : fs ≠ "" := by
    intro h
    subst h
    rw [show parsePyFloat "" = none from rfl] at hf
    exact Option.noConfusion hf
  have has : as ≠ "" := by
    intro h
    subst h
    rw [show parsePyFloat "" = none from rfl] at ha
    exact Option.noConfusion ha
  constructor
  · unfold demandVarianceText
    rw [if_neg (by simp [hfs, has]), hf, ha]
    dsimp only [pyIsZero, pyGt, varianceFormattedPy]
    rw [if_neg (by simp [hnum]), ← variancePercentFormatted_eq f a hnum]
    by_cases hlt : f.toRat < a.toRat
    · rw [if_pos (decide_eq_true ((DecNum.toRat_lt f a).mp hlt)), if_pos hlt]
    · rw [if_neg (fun hc => hlt ((DecNum.toRat_lt f a).mpr (of_decide_eq_true hc))),
        if_neg hlt]
  · unfold liveSupplyVarianceText
    rw [if_neg (by simp [hfs, has]), hf, ha]
    dsimp only [pyIsZero, pyGt, varianceFormattedPy]
    rw [if_neg (by simp [hnum]), ← variancePercentFormatted_eq f a hnum]
    by_cases hlt : f.toRat < a.toRat
    · rw [if_pos (decide_eq_true ((DecNum.toRat_lt f a).mp hlt)), if_pos hlt]
    · rw [if_neg (fun hc => hlt ((DecNum.toRat_lt f a).mpr (of_decide_eq_true hc))),
        if_neg hlt]

/-- Witness for C2 at forecast `"100"`, actual `"120"` (the spec's own
end-to-end example): the variance text is
`Incoming volume was 20.00% higher than forecasted.`. -/
theorem C2_variance_direction_witness :
    demandVarianceText "100" "120" =
      "Incoming volume was 20.00% higher than forecasted." := by
  have h := (C2_variance_direction "100" "120" ⟨100, 0⟩ ⟨120, 0⟩ (by decide) (by decide)
    (by norm_num [DecNum.toRat])).1
  rw [h, if_pos (by norm_num [DecNum.toRat]),
    ← variancePercentFormatted_eq ⟨100, 0⟩ ⟨120, 0⟩ (by decide)]
  decide

/-- C3 counterexample: at forecast `"0"` the demand computation returns
`Cannot calculate variance: Forecasted volume is zero.` (and the
live-channel computation its own sentence), not the literal message
`cannot calculate variance: denominator is zero` that the claim quotes. -/
theorem C3_counterexample :
    demandVarianceText "0" "5" =
        "Cannot calculate variance: Forecasted volume is zero." ∧
    demandVarianceText "0" "5" ≠
        "cannot calculate variance: denominator is zero" ∧
    liveSupplyVarianceText "0" "5" =
        "Cannot calculate variance: Required hours to handle forecasted volume is zero." ∧
    liveSupplyVarianceText "0" "5" ≠
        "cannot calculate variance: denominator is zero" := by
  refine ⟨by decide, by decide, by decide, by decide⟩

/-- C3 (amended): whenever the denominator input parses to exactly zero
and the actual input parses, each variance computation returns its fixed
zero-denominator sentinel — the same sentence for every parsed actual
value, so the division is never performed. -/
theorem C3_zero_denominator (fs as : String) (f a : DecNum)
    (hf : parsePyFloat fs = some (PyFloat.finite f))
    (ha : parsePyFloat as = some (PyFloat.finite a))
    (h0 : f.toRat = 0) :
    demandVarianceText fs as =
        "Cannot calculate variance: Forecasted volume is zero." ∧
    liveSupplyVarianceText fs as =
        "Cannot calculate variance: Required hours to handle forecasted volume is zero." := by
  have hnum : f.num = 0 := (DecNum.toRat_eq_zero f).mp h0
  have hfs : fs ≠ "" := by
    intro h
    subst h
    rw [show parsePyFloat "" = none from rfl] at hf
    exact Option.noConfusion hf
  have has : as ≠ "" := by
    intro h
    subst h
    rw [show parsePyFloat "" = none from rfl] at ha
    exact Option.noConfusion ha
  constructor
  · unfold demandVarianceText
    rw [if_neg (by simp [hfs, has]), hf, ha]
    dsimp only [pyIsZero]
    rw [if_pos (by simp [hnum])]
  · unfold liveSupplyVarianceText
    rw [if_neg (by simp [hfs, has]), hf, ha]
    dsimp only [pyIsZero]
    rw [if_pos (by simp [hnum])]

/-- Witness for C3 at forecast `"0.0"`, actual `"5"`. -/
theorem C3_zero_denominator_witness :
    demandVarianceText "0.0" "5" =
        "Cannot calculate variance: Forecasted volume is zero." ∧
    liveSupplyVarianceText "0.0" "5" =
        "Cannot calculate variance: Required hours to handle forecasted volume is zero." :=
  C3_zero_denominator "0.0" "5" ⟨0, 1⟩ ⟨5, 0⟩ (by decide) (by decide)
    (by norm_num [DecNum.toRat])

/-- C4 counterexample: the input `"inf"` does not parse as a FINITE
number, yet `float("inf")` does not raise — the code computes a variance
sentence instead of the explanatory error text (`inf == 0` is false,
`actual/inf - 1 = -1.0`, formatted `100.00%`, direction "lower"), in
both variance sites.  The last three conjuncts confirm the parser model:
`"nan"` also flows into the computation, and `"1e3"` / `"1_0"` parse as
finite numbers and produce ordinary variance sentences. -/
theorem C4_counterexample :
    demandVarianceText "inf" "120" =
        "Incoming volume was 100.00% lower than forecasted." ∧
    demandVarianceText "inf" "120" ≠
        "Error: Invalid numeric input for forecasted or actual volume. Cannot calculate variance." ∧
    liveSupplyVarianceText "inf" "120" =
        "Incoming volume was 100.00% lower than forecasted." ∧
    demandVarianceText "120" "nan" =
        "Incoming volume was nan% lower than forecasted." ∧
    demandVarianceText "1e3" "120" =
        "Incoming volume was 88.00% lower than forecasted." ∧
    demandVarianceText "1_0" "12" =
        "Incoming volume was 20.00% higher than forecasted." :=
  ⟨by decide, by decide, by decide, by decide, by decide, by decide⟩

/-- C4 (amended): with both fields non-empty, each variance computation
yields its fixed explanatory error sentence exactly on the inputs where
`float()` raises `ValueError` — text that is not numeric at all.
Inputs parsing to non-finite floats (`inf`, `nan`) do not raise and
instead flow into the variance computation. -/
theorem C4_parse_error (fs as : String) (hfs : fs ≠ "") (has : as ≠ "")
    (h : parsePyFloat fs = none ∨ parsePyFloat as = none) :
    demandVarianceText fs as =
        "Error: Invalid numeric input for forecasted or actual volume. Cannot calculate variance." ∧
    liveSupplyVarianceText fs as =
        "Error: Invalid numeric input. Cannot calculate variance." := by
  constructor
  · unfold demandVarianceText
    rw [if_neg (by simp [hfs, has])]
    cases hf2 : parsePyFloat fs <;> cases ha2 : parsePyFloat as <;> simp_all
  · unfold liveSupplyVarianceText
    rw [if_neg (by simp [hfs, has])]
    cases hf2 : parsePyFloat fs <;> cases ha2 : parsePyFloat as <;> simp_all

/-- Witness for C4 at forecast `"abc"`, actual `"12"`. -/
theorem C4_parse_error_witness :
    demandVarianceText "abc" "12" =
        "Error: Invalid numeric input for forecasted or actual volume. Cannot calculate variance." ∧
    liveSupplyVarianceText "abc" "12" =
        "Error: Invalid numeric input. Cannot calculate variance." :=
  C4_parse_error "abc" "12" (by decide) (by decide) (Or.inl (by decide))

theorem rowEntry_props {k : Nat} {row : List String} {e : QueueEntry}
    (h : rowEntry k row = some e) :
    e.rangeIndex = k ∧ e.name = pyStrip (row.getD 0 "") ∧ e.name ≠ "" ∧
      pyLower e.name ∉ headerLabels ∧
      map_sheet_color_char_to_name (pyStrip (row.getD 7 "")) = some e.color ∧
      (e.color = "red" ∨ e.color = "amber") := by
  unfold rowEntry at h
  split at h
  · exact Option.noConfusion h
  · split at h
    · exact Option.noConfusion h
    · rename_i hlen hname
      push_neg at hname
      cases hm : map_sheet_color_char_to_name (pyStrip (row.getD 7 "")) with
      | none => rw [hm] at h; exact Option.noConfusion h
      | some c =>
        rw [hm] at h
        dsimp only at h
        split at h
        · rename_i hra
          injection h with h'
          subst h'
          exact ⟨rfl, rfl, hname.1, hname.2, rfl, hra⟩
        · exact Option.noConfusion h

theorem rowEntry_none_of_excluded {k : Nat} {row : List String}
    (hcond : pyStrip (row.getD 0 "") = "" ∨
      pyLower (pyStrip (row.getD 0 "")) ∈ headerLabels ∨
      (∀ c, map_sheet_color_char_to_name (pyStrip (row.getD 7 "")) = some c →
        c ≠ "red" ∧ c ≠ "amber")) :
    rowEntry k row = none := by
  unfold rowEntry
  split
  · rfl
  · by_cases hc2 : pyStrip (row.getD 0 "") = "" ∨
        pyLower (pyStrip (row.getD 0 "")) ∈ headerLabels
    · rw [if_pos hc2]
    · rw [if_neg hc2]
      push_neg at hc2
      rcases hcond with h | h | h
      · exact absurd h hc2.1
      · exact absurd h hc2.2
      · cases hm : map_sheet_color_char_to_name (pyStrip (row.getD 7 "")) with
        | none => rfl
        | some c =>
          obtain ⟨h1, h2⟩ := h c hm
          dsimp only
          rw [if_neg (by rintro (h' | h') <;> [exact h1 h'; exact h2 h'])]

theorem mem_relevantAux :
    ∀ (rows : List (List String)) (i : Nat) (e : QueueEntry),
      e ∈ relevantAux i rows →
      ∃ j row, rows.get? j = some row ∧ rowEntry (i + j) row = some e := by
  intro rows
  induction rows with
  | nil =>
    intro i e h
    exact absurd h (List.not_mem_nil e)
  | cons row rest ih =>
    intro i e h
    unfold relevantAux at h
    cases hre : rowEntry i row with
    | some e' =>
      rw [hre] at h
      rcases List.mem_cons.mp h with rfl | h'
      · exact ⟨0, row, rfl, hre⟩
      · obtain ⟨j, r, hg, hr⟩ := ih (i + 1) e h'
        exact ⟨j + 1, r, hg, by rw [show i + (j + 1) = i + 1 + j by omega]; exact hr⟩
    | none =>
      rw [hre] at h
      obtain ⟨j, r, hg, hr⟩ := ih (i + 1) e h
      exact ⟨j + 1, r, hg, by rw [show i + (j + 1) = i + 1 + j by omega]; exact hr⟩

theorem relevantAux_le {rows : List (List String)} {i : Nat} {e : QueueEntry}
    (h : e ∈ relevantAux i rows) : i ≤ e.rangeIndex := by
  obtain ⟨j, r, _, hr⟩ := mem_relevantAux rows i e h
  have := (rowEntry_props hr).1
  omega

theorem relevantAux_pairwise (rows : List (List String)) :
    ∀ i, (relevantAux i rows).Pairwise (fun x y => x.rangeIndex < y.rangeIndex) := by
  induction rows with
  | nil =>
    intro i
    exact List.Pairwise.nil
  | cons row rest ih =>
    intro i
    unfold relevantAux
    cases hre : rowEntry i row with
    | some e =>
      refine List.Pairwise.cons ?_ (ih (i + 1))
      intro b hb
      have h1 := (rowEntry_props hre).1
      have h2 := relevantAux_le hb
      omega
    | none => exact ih (i + 1)

/-- C5: every entry returned by `get_all_relevant_queues_from_sheet` comes
from the row at its stored 0-based range index, with non-blank non-header
name and a status mapping to red or amber; rows that are blank, headers,
or whose status does not map to red/amber contribute no entry; the output
preserves source row order (range indices strictly increase); and the
computation is a pure function of the fetched snapshot (idempotent). -/
theorem C5_list_flagged_queues (rows : List (List String)) :
    (∀ e ∈ get_all_relevant_queues_from_sheet rows,
      ∃ row, rows.get? e.rangeIndex = some row ∧
        e.name = pyStrip (row.getD 0 "") ∧ e.name ≠ "" ∧
        pyLower e.name ∉ headerLabels ∧
        map_sheet_color_char_to_name (pyStrip (row.getD 7 "")) = some e.color ∧
        (e.color = "red" ∨ e.color = "amber")) ∧
    (∀ j row, rows.get? j = some row →
      (pyStrip (row.getD 0 "") = "" ∨
        pyLower (pyStrip (row.getD 0 "")) ∈ headerLabels ∨
        (∀ c, map_sheet_color_char_to_name (pyStrip (row.getD 7 "")) = some c →
          c ≠ "red" ∧ c ≠ "amber")) →
      ∀ e ∈ get_all_relevant_queues_from_sheet rows, e.rangeIndex ≠ j) ∧
    (get_all_relevant_queues_from_sheet rows).Pairwise
      (fun x y => x.rangeIndex < y.rangeIndex) ∧
    get_all_relevant_queues_from_sheet rows = get_all_relevant_queues_from_sheet rows := by
  refine ⟨?_, ?_, relevantAux_pairwise rows 0, rfl⟩
  · intro e he
    obtain ⟨j, r, hg, hr⟩ := mem_relevantAux rows 0 e he
    obtain ⟨h1, h2, h3, h4, h5, h6⟩ := rowEntry_props hr
    refine ⟨r, ?_, h2, h3, h4, h5, h6⟩
    rw [h1]
    simpa using hg
  · intro j row hget hcond e he heq
    obtain ⟨j', r', hg', hr'⟩ := mem_relevantAux rows 0 e he
    have hri : e.rangeIndex = 0 + j' := (rowEntry_props hr').1
    have hj : j' = j := by omega
    subst hj
    rw [hget] at hg'
    injection hg' with hrr
    subst hrr
    rw [rowEntry_none_of_excluded hcond] at hr'
    exact Option.noConfusion hr'

/-- Witness for C5: in the demo snapshot the header row (index 0) yields
no entry — the amber entry present has range index 1, not 0. -/
theorem C5_list_flagged_queues_witness :
    (⟨"Queue A", "amber", 1⟩ : QueueEntry).rangeIndex ≠ 0 :=
  (C5_list_flagged_queues c5DemoRows).2.1 0
    ["Email Queues", "", "", "", "", "", "", "red"] rfl
    (Or.inr (Or.inl (by decide))) ⟨"Queue A", "amber", 1⟩ (by decide)

theorem volumeScanRows_eq (q : String) :
    ∀ (rows : List (List String)),
      (∀ row ∈ rows,
        VOLUME_VALUE_COL_INDEX < row.length → VOLUME_QUEUE_COL_INDEX < row.length) →
      volumeScanRows q rows =
        (rows.find? (fun row =>
            decide (VOLUME_QUEUE_COL_INDEX < row.length) &&
              (pyLower (pyStrip (row.getD VOLUME_QUEUE_COL_INDEX "")) ==
                pyLower q))).map
          (fun row => pyStrip (row.getD VOLUME_VALUE_COL_INDEX "")) := by
  intro rows
  induction rows with
  | nil => intro _; rfl
  | cons row rest ih =>
    intro hw
    have hw' : ∀ r ∈ rest,
        VOLUME_VALUE_COL_INDEX < r.length → VOLUME_QUEUE_COL_INDEX < r.length :=
      fun r hr => hw r (List.mem_cons_of_mem _ hr)
    unfold volumeScanRows
    by_cases h2 : VOLUME_VALUE_COL_INDEX < row.length
    · have h3 : VOLUME_QUEUE_COL_INDEX < row.length :=
        hw row (List.mem_cons_self row rest) h2
      rw [if_pos h2, if_pos h3]
      by_cases heq : pyLower (pyStrip (row.getD VOLUME_QUEUE_COL_INDEX "")) =
          pyLower q
      · rw [if_pos heq,
          List.find?_cons_of_pos _
            (by rw [Bool.and_eq_true]; exact ⟨decide_eq_true h3, by rwa [beq_iff_eq]⟩),
          Option.map_some']
      · rw [if_neg heq,
          List.find?_cons_of_neg _
            (by
              intro hcontra
              rw [Bool.and_eq_true, beq_iff_eq] at hcontra
              exact heq hcontra.2),
          ih hw']
    · have h3 : ¬ VOLUME_QUEUE_COL_INDEX < row.length := by
        simp only [VOLUME_QUEUE_COL_INDEX, VOLUME_VALUE_COL_INDEX] at h2 ⊢
        omega
      rw [if_neg h2,
        List.find?_cons_of_neg _
          (by
            intro hcontra
            rw [Bool.and_eq_true] at hcontra
            exact h3 (of_decide_eq_true hcontra.1)),
        ih hw']

/-- C8 counterexample: with the claim's trimming of BOTH sides, queue
name `" a "` should match the sheet row `["", "", "5", "a"]` and return
`"5"`; the code lowercases but does not trim the looked-up name, so it
finds nothing. -/
theorem C8_counterexample :
    get_actual_volume_from_sheet [["h"], ["", "", "5", "a"]] " a " = none ∧
    findActualVolumeClaim [["h"], ["", "", "5", "a"]] " a " = some "5" :=
  ⟨by decide, by decide⟩

/-- C8 (amended): provided every fetched row that has a value-column cell
also has a name-column cell (true of a rectangular grid), the lookup
skips the header row and returns the trimmed value-column text of the
first row whose trimmed, lowercased name-column equals the lowercased
(not trimmed) queue name — `none` when the sheet is empty or nothing
matches. -/
theorem C8_find_actual_volume (rows : List (List String)) (q : String)
    (hw : ∀ row ∈ rows,
      VOLUME_VALUE_COL_INDEX < row.length → VOLUME_QUEUE_COL_INDEX < row.length) :
    get_actual_volume_from_sheet rows q = findActualVolumeAmended rows q := by
  cases rows with
  | nil => rfl
  | cons header dataRows =>
    exact volumeScanRows_eq q dataRows
      (fun r hr => hw r (List.mem_cons_of_mem _ hr))

/-- Witness for C8: on the demo sheet the scan agrees with the amended
specification (and indeed returns the first match, `"7"`). -/
theorem C8_find_actual_volume_witness :
    get_actual_volume_from_sheet c8DemoRows "queue a" =
        findActualVolumeAmended c8DemoRows "queue a" ∧
    get_actual_volume_from_sheet c8DemoRows "queue a" = some "7" :=
  ⟨C8_find_actual_volume c8DemoRows "queue a" (by decide), by decide⟩

theorem countTitles_append (a b : List DocItem) :
    countTitles (a ++ b) = countTitles a + countTitles b := by
  simp [countTitles, List.filter_append]

theorem countTitles_map_bullet (l : List String) :
    countTitles (l.map DocItem.bullet) = 0 := by
  induction l with
  | nil => rfl
  | cons a t ih =>
    rw [List.map_cons]
    have h1 : countTitles (DocItem.bullet a :: t.map DocItem.bullet) =
        countTitles (t.map DocItem.bullet) := by
      simp [countTitles, List.filter, isTitle]
    rw [h1, ih]

theorem countTitles_record (r : RcaData) : countTitles (recordItems r) = 1 := by
  simp [recordItems, countTitles_append, countTitles_map_bullet, countTitles,
    List.filter, isTitle]

theorem countTitles_bind (rest : List RcaData) :
    countTitles
        (rest.flatMap (fun d => DocItem.blank :: DocItem.blank :: recordItems d)) =
      rest.length := by
  induction rest with
  | nil => rfl
  | cons r t ih =>
    rw [List.flatMap_cons]
    rw [countTitles_append]
    have h1 : countTitles (DocItem.blank :: DocItem.blank :: recordItems r) =
        countTitles (recordItems r) := by
      simp [countTitles, List.filter, isTitle]
    rw [h1, countTitles_record, ih]
    simp [Nat.add_comm]

theorem countTitles_expectedDoc (rs : List RcaData) :
    countTitles (expectedDoc rs) = rs.length := by
  cases rs with
  | nil => rfl
  | cons r rest =>
    rw [expectedDoc, countTitles_append, countTitles_record, countTitles_bind]
    simp [Nat.add_comm]

theorem foldl_process_append (rs : List RcaData) :
    ∀ (doc : List DocItem) (reports : List RcaData), reports ≠ [] →
      rs.foldl (fun st d => process_single_rca_to_document st.1 st.2 d)
          (doc, reports) =
        (doc ++ rs.flatMap (fun d => DocItem.blank :: DocItem.blank :: recordItems d),
         reports ++ rs) := by
  induction rs with
  | nil =>
    intro doc reports _
    simp
  | cons r rest ih =>
    intro doc reports h
    have hlen : 0 < reports.length := List.length_pos.mpr h
    rw [List.foldl_cons]
    have hstep : process_single_rca_to_document doc reports r =
        (doc ++ [DocItem.blank, DocItem.blank] ++ recordItems r, reports ++ [r]) := by
      rw [process_single_rca_to_document, if_pos hlen]
    rw [hstep, ih _ _ (by simp)]
    rw [List.flatMap_cons]
    simp [List.append_assoc]

/-- C6: appending records from an empty document yields exactly the
specified layout — each record contributes its title heading (marker
color and uppercased title) and its Supply, Demand (three bullets in
fixed order) and Drivers groups, with blank-paragraph separation before
every record after the first — and N appends produce exactly N title
headings. -/
theorem C6_document_layout (rs : List RcaData) :
    rs.foldl (fun st d => process_single_rca_to_document st.1 st.2 d)
        (([] : List DocItem), ([] : List RcaData)) =
      (expectedDoc rs, rs) ∧
    countTitles (expectedDoc rs) = rs.length := by
  refine ⟨?_, countTitles_expectedDoc rs⟩
  cases rs with
  | nil => rfl
  | cons r rest =>
    rw [List.foldl_cons]
    have h1 : process_single_rca_to_document [] [] r = (recordItems r, [r]) := by
      rw [process_single_rca_to_document]
      simp
    rw [h1, foldl_process_append rest (recordItems r) [r] (by simp)]
    rw [expectedDoc]
    simp

/-- C7: `serialize()` does not mutate the document, and two consecutive
calls return bit-identical byte streams. -/
theorem C7_serialize_pure (document : List DocItem) :
    (serializeDocument document).2 = document ∧
    (serializeDocument ((serializeDocument document).2)).1 =
      (serializeDocument document).1 :=
  ⟨rfl, rfl⟩

/-- C1: the "complete" action is accepted exactly when the active
record's supply lines, variance text and driver list are all non-empty;
a rejection signals the blocking message and changes nothing (in
particular the phase); an acceptance appends exactly the active record
to the completed list, leaves `remaining_queues` untouched and moves to
`review_rca`; a valid selection removes exactly the chosen entry from
`remaining_queues`; and a full select-fill-complete cycle removes one
queue, appends one record and ends in `review_rca`. -/
theorem C1_complete_transition (s : SessionState) (d : RcaData)
    (hs : s.rca_data = some d) :
    ((complete_rca_button s).2 = none ↔
      (d.supply_word_lines ≠ [] ∧ d.variance_text ≠ "" ∧ d.drivers_list ≠ [])) ∧
    (¬ (d.supply_word_lines ≠ [] ∧ d.variance_text ≠ "" ∧ d.drivers_list ≠ []) →
      complete_rca_button s = (s, some completeRejectMsg)) ∧
    ((d.supply_word_lines ≠ [] ∧ d.variance_text ≠ "" ∧ d.drivers_list ≠ []) →
      (complete_rca_button s).1.rca_reports = s.rca_reports ++ [d] ∧
      (complete_rca_button s).1.current_rca_step = Step.review_rca ∧
      (complete_rca_button s).1.remaining_queues = s.remaining_queues) ∧
    (∀ i, i < s.remaining_queues.length →
      (select_queue_choice s i).remaining_queues = s.remaining_queues.eraseIdx i ∧
      (select_queue_choice s i).remaining_queues.length + 1 =
        s.remaining_queues.length) ∧
    (∀ i supply fstr astr vtext drivers, i < s.remaining_queues.length →
      supply ≠ [] → vtext ≠ "" → drivers ≠ [] →
      (complete_rca_button
          (fill_inputs (select_queue_choice s i) supply fstr astr vtext drivers)).1.remaining_queues.length
          + 1 = s.remaining_queues.length ∧
      (complete_rca_button
          (fill_inputs (select_queue_choice s i) supply fstr astr vtext drivers)).1.rca_reports.length
          = s.rca_reports.length + 1 ∧
      (complete_rca_button
          (fill_inputs (select_queue_choice s i) supply fstr astr vtext drivers)).1.current_rca_step
          = Step.review_rca) := by
  refine ⟨?_, ?_, ?_, ?_, ?_⟩
  · unfold complete_rca_button
    rw [hs]
    dsimp only
    by_cases hcond : d.supply_word_lines ≠ [] ∧ d.variance_text ≠ "" ∧
        d.drivers_list ≠ []
    · rw [if_pos hcond]
      simp [hcond]
    · rw [if_neg hcond]
      simp [hcond]
  · intro hcond
    unfold complete_rca_button
    rw [hs]
    dsimp only
    rw [if_neg hcond]
  · intro hcond
    unfold complete_rca_button
    rw [hs]
    dsimp only
    rw [if_pos hcond]
    exact ⟨rfl, rfl, rfl⟩
  · intro i hi
    unfold select_queue_choice
    rw [if_pos hi]
    exact ⟨rfl, List.length_eraseIdx_add_one hi⟩
  · intro i supply fstr astr vtext drivers hi hsup hv hdr
    unfold select_queue_choice
    rw [if_pos hi]
    unfold fill_inputs
    dsimp only
    unfold complete_rca_button
    dsimp only
    rw [if_pos ⟨hsup, hv, hdr⟩]
    refine ⟨?_, ?_, rfl⟩
    · dsimp only
      exact List.length_eraseIdx_add_one hi
    · dsimp [process_single_rca_to_document]
      simp

/-- Witness for C1 at the concrete state `c1State`: the filled record is
accepted, appended, the phase moves to `review_rca`, and selecting the
remaining queue at index 0 removes exactly that entry. -/
theorem C1_complete_transition_witness :
    (complete_rca_button c1State).1.rca_reports = [] ++ [c1Record] ∧
    (complete_rca_button c1State).1.current_rca_step = Step.review_rca ∧
    (select_queue_choice c1State 0).remaining_queues.length + 1 = 1 := by
  have h := C1_complete_transition c1State c1Record rfl
  have hcond : c1Record.supply_word_lines ≠ [] ∧ c1Record.variance_text ≠ "" ∧
      c1Record.drivers_list ≠ [] := by decide
  exact ⟨(h.2.2.1 hcond).1, (h.2.2.1 hcond).2.1,
    (h.2.2.2.1 0 (by decide)).2⟩

/-- C9 (code bug): on the success path and on an embedding failure the
marker file is removed, but when creation fails after the file was
opened the `finally` clause raises `UnboundLocalError` before any
removal, so the partial marker file outlives the append call. -/
theorem C9_marker_cleanup :
    (process_marker_cleanup CreateOutcome.ok false).fileExistsAfter = false ∧
    (process_marker_cleanup CreateOutcome.ok false).removeRan = true ∧
    (process_marker_cleanup CreateOutcome.ok true).fileExistsAfter = false ∧
    (process_marker_cleanup CreateOutcome.ok true).removeRan = true ∧
    (process_marker_cleanup CreateOutcome.failFileLeft false).fileExistsAfter = true ∧
    (process_marker_cleanup CreateOutcome.failFileLeft false).removeRan = false ∧
    (process_marker_cleanup CreateOutcome.failFileLeft false).raised =
      some "UnboundLocalError" := by
  decide

/-- C10: with non-empty forecast and actual strings of which one does not
parse, the stored variance text is the non-empty error sentence; it
passes the non-empty-variance completeness check, so "complete" succeeds
(no rejection signal, phase moves to `review_rca`) and the error
sentence is written into the document as the record's variance
bullet. -/
theorem C10_error_text_completes :
    demandVarianceText "abc" "120" =
        "Error: Invalid numeric input for forecasted or actual volume. Cannot calculate variance." ∧
    demandVarianceText "abc" "120" ≠ "" ∧
    (complete_rca_button c10State).2 = none ∧
    (complete_rca_button c10State).1.current_rca_step = Step.review_rca ∧
    DocItem.bullet
        "Error: Invalid numeric input for forecasted or actual volume. Cannot calculate variance." ∈
      (complete_rca_button c10State).1.document := by
  refine ⟨by decide, by decide, by decide, by decide, by decide⟩

end RcaApp
